import Mathlib

/-!
Verification of the tower-governor request-admission middleware.

The development shallowly embeds the two source files `src/lib.rs` and
`src/governor.rs` of the `tower-governor` crate. Pure Rust values become
Lean structures; `&mut self` methods become explicit state passing; the
external quota tracker (the `governor` crate's `DefaultDirectRateLimiter`,
an external capability consumed but not implemented by this repository) is
represented by its observable contract: a state value together with a
`check` step function supplied by the caller. Panics (`unwrap`, `expect`)
are modelled with `Except`/explicit outcome constructors so "never panics"
becomes a provable statement.
-/

namespace TowerGovernor

/-- `std::time::Duration`, represented by its total length in nanoseconds.
Rust's `Duration` stores (u64 secs, u32 subsec nanos); equality and the
accessors used by the source (`as_nanos`, `as_secs`) depend only on the
total nanosecond count, which this field carries exactly. -/
structure Duration where
  nanos : Nat
deriving DecidableEq, Repr

/-- `Duration::from_millis` (cannot overflow for the sizes involved). -/
def Duration.from_millis (ms : Nat) : Duration := ⟨ms * 1000000⟩

/-- `Duration::from_secs`. -/
def Duration.from_secs (s : Nat) : Duration := ⟨s * 1000000000⟩

/-- `Duration::from_nanos`. -/
def Duration.from_nanos (n : Nat) : Duration := ⟨n⟩

/-- `Duration::as_nanos` (returns u128 in Rust; no truncation). -/
def Duration.as_nanos (d : Duration) : Nat := d.nanos

/-- `Duration::as_secs`: whole seconds, fractional part discarded. -/
def Duration.as_secs (d : Duration) : Nat := d.nanos / 1000000000

/-- `http::Method`: the standard request methods. -/
inductive Method where
  | GET | POST | PUT | DELETE | HEAD | OPTIONS | CONNECT | PATCH | TRACE
deriving DecidableEq, Repr

/-- `http::HeaderMap` restricted to what the source uses: an association
list of header-name/value pairs, values as decimal text. -/
abbrev HeaderMap := List (String × String)

/-- `HeaderMap::new`. -/
def HeaderMap.new : HeaderMap := []

/-- `HeaderMap::insert`: replaces the value of an existing header name,
otherwise appends the pair. -/
def HeaderMap.insert (m : HeaderMap) (k v : String) : HeaderMap :=
  if m.any (fun p => p.fst == k) then
    m.map (fun p => if p.fst == k then (k, v) else p)
  else
    m ++ [(k, v)]

/-- Header lookup (the observable read on the map). -/
def HeaderMap.get? (m : HeaderMap) (k : String) : Option String :=
  (m.find? (fun p => p.fst == k)).map Prod.snd

/-- `http::Response<axum::body::Body>` restricted to the observable
fields; the body is text. -/
structure Response where
  status : Nat
  headers : HeaderMap
  body : String

/-- `GovernorError` from `src/errors.rs`. Only the variant produced by the
core decision path appears in the available sources
(`GovernorError::TooManyRequests { wait_time, headers }` in `src/lib.rs`). -/
inductive GovernorError where
  | TooManyRequests (wait_time : Nat) (headers : Option HeaderMap)

/-- Modelled from the spec: `GovernorError::as_response` lives in
`src/errors.rs`, which is not among the available source files. Per the
spec's error-renderer contract, the default implementation renders HTTP
status 429 with the retry headers attached and a minimal body. -/
def GovernorError.as_response : GovernorError → Response
  | GovernorError.TooManyRequests _ headers =>
      { status := 429, headers := headers.getD HeaderMap.new,
        body := "Too Many Requests" }

/-- `struct ErrorHandler(Arc<dyn Fn(GovernorError) -> Response<Body>>)`:
a boxed rendering function. Cloning the Rust value clones the `Arc`, which
yields the same function, so `Clone` is the identity here. -/
structure ErrorHandler where
  run : GovernorError → Response

/-- `impl Default for ErrorHandler`: wraps `|mut e| e.as_response()`. -/
def ErrorHandler.default : ErrorHandler := ⟨fun e => e.as_response⟩

/-- `impl PartialEq for ErrorHandler`: `fn eq(&self, _: &Self) -> bool`
returns `true` unconditionally. -/
def ErrorHandler.beq (_ : ErrorHandler) (_ : ErrorHandler) : Bool := true

/-- `NonZeroU32::new`: `None` exactly on zero. -/
def NonZeroU32.new (n : Nat) : Option Nat :=
  if n = 0 then none else some n

/-- The external `governor::Quota` value as configured by the source:
replenishment period for one cell, and the burst allowance. -/
structure Quota where
  replenish_period : Duration
  max_burst : Nat
deriving DecidableEq, Repr

/-- `Quota::with_period`: `None` when the period is zero, otherwise a
quota replenishing one cell per period with burst allowance 1. -/
def Quota.with_period (d : Duration) : Option Quota :=
  if d.as_nanos = 0 then none
  else some { replenish_period := d, max_burst := 1 }

/-- `Quota::allow_burst`: replaces the burst allowance. -/
def Quota.allow_burst (q : Quota) (b : Nat) : Quota :=
  { q with max_burst := b }

/-- The external `DefaultDirectRateLimiter`: its configured quota plus an
abstract internal state (the tracker's bookkeeping, opaque to this crate;
mutated only through `check`). -/
structure RateLimiter where
  quota : Quota
  state : Nat

/-- `RateLimiter::direct`: a fresh tracker for the given quota. -/
def RateLimiter.direct (q : Quota) : RateLimiter :=
  { quota := q, state := 0 }

/-- `std::sync::Arc`: a reference-counted handle. `id` identifies the
allocation, so two handles with the same `id` share one underlying value;
`Arc::clone` copies the handle (same allocation), while a fresh `Arc::new`
carries a caller-chosen fresh allocation id. -/
structure Arc (α : Type) where
  id : Nat
  value : α
deriving DecidableEq, Repr

/-- `Arc::new` at a given fresh allocation id. -/
def Arc.new (fresh : Nat) (v : α) : Arc α := ⟨fresh, v⟩

/-- `Arc::clone`: the same handle to the same allocation. -/
def Arc.clone (a : Arc α) : Arc α := a

/-- A write through the handle: the shared value is replaced, the
allocation id is untouched (models interior mutation of the tracker). -/
def Arc.setValue (a : Arc α) (v : α) : Arc α := { a with value := v }

/-- `type SharedRateLimiter = Arc<DefaultDirectRateLimiter>`. -/
abbrev SharedRateLimiter := Arc RateLimiter

/-- `GovernorConfigBuilder` from `src/governor.rs`. -/
structure GovernorConfigBuilder where
  period : Duration
  burst_size : Nat
  methods : Option (List Method)
  error_handler : ErrorHandler

/-- `DEFAULT_PERIOD: Duration = Duration::from_millis(500)`. -/
def DEFAULT_PERIOD : Duration := Duration.from_millis 500

/-- `DEFAULT_BURST_SIZE: u32 = 8`. -/
def DEFAULT_BURST_SIZE : Nat := 8

/-- `GovernorConfigBuilder::const_default`. -/
def GovernorConfigBuilder.const_default : GovernorConfigBuilder :=
  { period := DEFAULT_PERIOD
    burst_size := DEFAULT_BURST_SIZE
    methods := none
    error_handler := ErrorHandler.default }

/-- `GovernorConfigBuilder::period` (and `const_period`). -/
def GovernorConfigBuilder.setPeriod (b : GovernorConfigBuilder) (d : Duration) :
    GovernorConfigBuilder := { b with period := d }

/-- `GovernorConfigBuilder::per_second` (and `const_per_second`). -/
def GovernorConfigBuilder.per_second (b : GovernorConfigBuilder) (s : Nat) :
    GovernorConfigBuilder := { b with period := Duration.from_secs s }

/-- `GovernorConfigBuilder::per_millisecond` (and `const_per_millisecond`). -/
def GovernorConfigBuilder.per_millisecond (b : GovernorConfigBuilder) (ms : Nat) :
    GovernorConfigBuilder := { b with period := Duration.from_millis ms }

/-- `GovernorConfigBuilder::per_nanosecond` (and `const_per_nanosecond`). -/
def GovernorConfigBuilder.per_nanosecond (b : GovernorConfigBuilder) (n : Nat) :
    GovernorConfigBuilder := { b with period := Duration.from_nanos n }

/-- `GovernorConfigBuilder::burst_size` (and `const_burst_size`). -/
def GovernorConfigBuilder.setBurstSize (b : GovernorConfigBuilder) (n : Nat) :
    GovernorConfigBuilder := { b with burst_size := n }

/-- `GovernorConfigBuilder::methods`. -/
def GovernorConfigBuilder.setMethods (b : GovernorConfigBuilder)
    (ms : List Method) : GovernorConfigBuilder := { b with methods := some ms }

/-- `GovernorConfigBuilder::error_handler`. -/
def GovernorConfigBuilder.setErrorHandler (b : GovernorConfigBuilder)
    (f : GovernorError → Response) : GovernorConfigBuilder :=
  { b with error_handler := ⟨f⟩ }

/-- The derived `PartialEq` on `GovernorConfigBuilder`: field-by-field
comparison (`period`, `burst_size`, `methods` with their structural
equality, `error_handler` with `ErrorHandler`'s `eq`). -/
def GovernorConfigBuilder.beq (a b : GovernorConfigBuilder) : Bool :=
  decide (a.period = b.period) && decide (a.burst_size = b.burst_size) &&
    decide (a.methods = b.methods) &&
    ErrorHandler.beq a.error_handler b.error_handler

/-- `GovernorConfig` from `src/governor.rs`. -/
structure GovernorConfig where
  limiter : SharedRateLimiter
  methods : Option (List Method)
  error_handler : ErrorHandler

/-- `GovernorConfigBuilder::finish`, with the two interior `unwrap`s kept
fallible: an `Except.error` value is a panic. `fresh` is the allocation id
the `Arc::new` call receives. Mirrors the source guard
`self.burst_size != 0 && self.period.as_nanos() != 0`. -/
def GovernorConfigBuilder.finish (b : GovernorConfigBuilder) (fresh : Nat) :
    Except String (Option GovernorConfig) :=
  if b.burst_size != 0 && b.period.as_nanos != 0 then
    match Quota.with_period b.period with
    | none => Except.error "called Option unwrap on a None value"
    | some q =>
      match NonZeroU32.new b.burst_size with
      | none => Except.error "called Option unwrap on a None value"
      | some nz =>
          Except.ok (some
            { limiter := Arc.new fresh (RateLimiter.direct (q.allow_burst nz))
              methods := b.methods
              error_handler := b.error_handler })
  else
    Except.ok none

/-- Rust `Option::unwrap` applied under `Except`: `None` becomes a panic. -/
def unwrapOption : Except String (Option α) → Except String α
  | Except.ok (some a) => Except.ok a
  | Except.ok none => Except.error "called Option unwrap on a None value"
  | Except.error e => Except.error e

/-- `impl Default for GovernorConfig`:
`GovernorConfigBuilder::default().finish().unwrap()`. -/
def GovernorConfig.default (fresh : Nat) : Except String GovernorConfig :=
  unwrapOption (GovernorConfigBuilder.const_default.finish fresh)

/-- `GovernorConfig::secure`: the security preset, built literally with
period 4 s and burst size 2, then `finish().unwrap()`. -/
def GovernorConfig.secure (fresh : Nat) : Except String GovernorConfig :=
  unwrapOption
    (GovernorConfigBuilder.finish
      { period := Duration.from_secs 4
        burst_size := 2
        methods := none
        error_handler := ErrorHandler.default } fresh)

/-- `Governor<S>` from `src/governor.rs`. -/
structure Governor (S : Type) where
  limiter : SharedRateLimiter
  methods : Option (List Method)
  inner : S
  error_handler : ErrorHandler

/-- `impl Clone for Governor<S>`: the limiter handle and the error-handler
handle are `Arc`-cloned (shared), `methods` and the inner service are
cloned; `cloneS` is the inner service's own `Clone`. -/
def Governor.clone (g : Governor S) (cloneS : S → S) : Governor S :=
  { limiter := g.limiter.clone
    methods := g.methods
    inner := cloneS g.inner
    error_handler := g.error_handler }

/-- `Governor::new`: takes the config's shared limiter handle by
`Arc::clone`, and copies the method filter and error handler. -/
def Governor.new (inner : S) (config : GovernorConfig) : Governor S :=
  { limiter := config.limiter.clone
    methods := config.methods
    inner := inner
    error_handler := config.error_handler }

/-- `std::task::Poll`. -/
inductive Poll (α : Type) where
  | Ready (a : α)
  | Pending

/-- Rust's `Result`. -/
inductive RustResult (α ε : Type) where
  | Ok (a : α)
  | Err (e : ε)

/-- `Request<ReqBody>`: the method plus the rest of the request value. -/
structure Request (B : Type) where
  method : Method
  headers : HeaderMap
  body : B

/-- The outcome of one `limiter.check()` call, at the black-box boundary
of the external tracker: admitted, or denied carrying
`negative.wait_time_from(now)` (the duration until the next token). -/
inductive CheckResult where
  | admitted
  | denied (wait : Duration)

/-- `enum Kind<F>` from `src/lib.rs`. -/
inductive Kind (F : Type) where
  | Passthrough (future : F)
  | Error (error_response : Option Response)

/-- `struct ResponseFuture<F>` from `src/lib.rs`. -/
structure ResponseFuture (F : Type) where
  inner : Kind F

/-- The `match self.limiter.check()` arm of `Service::call`: runs the
tracker's step on the shared tracker value, writing the stepped state back
through the handle. On denial it computes `wait_time` in whole seconds,
inserts `x-ratelimit-after` and `retry-after`, renders
`GovernorError::TooManyRequests` through the configured handler and stores
the response. `check` is the external tracker's `check` contract. -/
def Governor.callCheck (g : Governor S) (innerCall : S → Request B → F)
    (check : RateLimiter → CheckResult × RateLimiter) (req : Request B) :
    ResponseFuture F × SharedRateLimiter :=
  match check g.limiter.value with
  | (CheckResult.admitted, lim') =>
      ({ inner := Kind.Passthrough (innerCall g.inner req) },
        g.limiter.setValue lim')
  | (CheckResult.denied wait, lim') =>
      let wait_time := wait.as_secs
      let headers :=
        (HeaderMap.new.insert "x-ratelimit-after" (toString wait_time)).insert
          "retry-after" (toString wait_time)
      let error_response :=
        g.error_handler.run
          (GovernorError.TooManyRequests wait_time (some headers))
      ({ inner := Kind.Error (some error_response) },
        g.limiter.setValue lim')

/-- `Service::call` for `Governor` from `src/lib.rs`: if a method filter
is configured and does not contain the request's method, return a
passthrough future immediately (the tracker is not consulted and its state
is unchanged); otherwise consult the tracker. Returns the response future
together with the shared limiter handle as left by the call. -/
def Governor.call (g : Governor S) (innerCall : S → Request B → F)
    (check : RateLimiter → CheckResult × RateLimiter) (req : Request B) :
    ResponseFuture F × SharedRateLimiter :=
  match g.methods with
  | some configured_methods =>
      if !(configured_methods.contains req.method) then
        ({ inner := Kind.Passthrough (innerCall g.inner req) }, g.limiter)
      else
        g.callCheck innerCall check req
  | none => g.callCheck innerCall check req

/-- `Service::poll_ready` for `Governor`: delegates to
`self.inner.poll_ready(cx)`; `innerPollReady` is the inner service's own
readiness step (which may update the inner service). -/
def Governor.poll_ready (g : Governor S)
    (innerPollReady : S → Poll (RustResult Unit E) × S) :
    Poll (RustResult Unit E) × Governor S :=
  match innerPollReady g.inner with
  | (r, s') => (r, { g with inner := s' })

/-- A poll's observable outcome, with panics explicit: `Future::poll` for
`ResponseFuture` either yields the inner poll result, or extracts the
stored response, or hits the `expect` on an already-taken response. -/
inductive PollOutcome (α : Type) where
  | ready (a : α)
  | pending
  | panicked (msg : String)

/-- `Future::poll` for `ResponseFuture<F>` from `src/lib.rs`.
`Passthrough` polls the inner future and yields its result verbatim;
`Error` takes the stored response (leaving `None` behind) and yields it
wrapped in `Ok`; taking from an already-emptied slot is the `expect`
panic. `innerPoll` is the wrapped future's own poll step. -/
def ResponseFuture.poll (f : ResponseFuture F)
    (innerPoll : F → Poll (RustResult Response E) × F) :
    PollOutcome (RustResult Response E) × ResponseFuture F :=
  match f.inner with
  | Kind.Passthrough fut =>
      match innerPoll fut with
      | (Poll.Ready a, fut') =>
          (PollOutcome.ready a, { inner := Kind.Passthrough fut' })
      | (Poll.Pending, fut') =>
          (PollOutcome.pending, { inner := Kind.Passthrough fut' })
  | Kind.Error o =>
      match o with
      | some resp =>
          (PollOutcome.ready (RustResult.Ok resp),
            { inner := Kind.Error none })
      | none =>
          (PollOutcome.panicked
            "<Governor as Service<Request<_>>>::call must produce Response<String> when GovernorError occurs.",
            { inner := Kind.Error none })

/-- Whether a request method passes the configured filter: with a filter,
membership; with no filter, every method passes (the source reaches the
tracker in both fallthrough paths). -/
def methodAllowed (methods : Option (List Method)) (m : Method) : Bool :=
  match methods with
  | some cm => cm.contains m
  | none => true

/-! ### Helper lemmas about the call path -/

/-- The header map built on the denial path, fully evaluated. -/
theorem built_headers_eq (v : String) :
    (HeaderMap.new.insert "x-ratelimit-after" v).insert "retry-after" v =
      [("x-ratelimit-after", v), ("retry-after", v)] := rfl

/-- `call` on a request passing the filter with a denied check: the full
result, with the header map evaluated. -/
theorem Governor.call_denied_eq {S B F : Type} (g : Governor S)
    (innerCall : S → Request B → F)
    (check : RateLimiter → CheckResult × RateLimiter) (req : Request B)
    (wait : Duration) (lim' : RateLimiter)
    (hm : methodAllowed g.methods req.method = true)
    (hc : check g.limiter.value = (CheckResult.denied wait, lim')) :
    g.call innerCall check req =
      ({ inner := Kind.Error (some (g.error_handler.run
          (GovernorError.TooManyRequests wait.as_secs
            (some [("x-ratelimit-after", toString wait.as_secs),
                   ("retry-after", toString wait.as_secs)])))) },
        g.limiter.setValue lim') := by
  cases hms : g.methods with
  | none =>
      simp only [Governor.call, hms, Governor.callCheck, hc]
      rw [built_headers_eq]
  | some cm =>
      have hcont : cm.contains req.method = true := by
        simpa [methodAllowed, hms] using hm
      simp only [Governor.call, hms, Governor.callCheck, hc, hcont,
        Bool.not_true, Bool.false_eq_true, if_false]
      rw [built_headers_eq]

/-- `call` on a request passing the filter with an admitted check: a
passthrough future over the unchanged request. -/
theorem Governor.call_admitted_eq {S B F : Type} (g : Governor S)
    (innerCall : S → Request B → F)
    (check : RateLimiter → CheckResult × RateLimiter) (req : Request B)
    (lim' : RateLimiter)
    (hm : methodAllowed g.methods req.method = true)
    (hc : check g.limiter.value = (CheckResult.admitted, lim')) :
    g.call innerCall check req =
      ({ inner := Kind.Passthrough (innerCall g.inner req) },
        g.limiter.setValue lim') := by
  cases hms : g.methods with
  | none =>
      simp only [Governor.call, hms, Governor.callCheck, hc]
  | some cm =>
      have hcont : cm.contains req.method = true := by
        simpa [methodAllowed, hms] using hm
      simp only [Governor.call, hms, Governor.callCheck, hc, hcont,
        Bool.not_true, Bool.false_eq_true, if_false]

/-- `callCheck` always writes the stepped tracker state back through the
shared handle, whatever the outcome. -/
theorem Governor.callCheck_snd {S B F : Type} (g : Governor S)
    (innerCall : S → Request B → F)
    (check : RateLimiter → CheckResult × RateLimiter) (req : Request B) :
    (g.callCheck innerCall check req).snd =
      g.limiter.setValue (check g.limiter.value).snd := by
  rcases hc : check g.limiter.value with ⟨res, lim'⟩
  cases res <;> simp only [Governor.callCheck, hc]

/-! ### Concrete sample values (used to instantiate the witnesses) -/

/-- A sample quota: one token per second, burst 3. -/
def sampleQuota : Quota :=
  { replenish_period := Duration.from_secs 1, max_burst := 3 }

/-- A sample unfiltered middleware over a trivial inner service. -/
def sampleGovernor : Governor Unit :=
  { limiter := Arc.new 0 (RateLimiter.direct sampleQuota)
    methods := none
    inner := ()
    error_handler := ErrorHandler.default }

/-- The sample middleware with a `{POST}` method filter. -/
def postOnlyGovernor : Governor Unit :=
  { sampleGovernor with methods := some [Method.POST] }

/-- A sample GET request. -/
def sampleReq : Request Unit :=
  { method := Method.GET, headers := HeaderMap.new, body := () }

/-- A trivial inner-service call. -/
def sampleInnerCall : Unit → Request Unit → Unit := fun _ _ => ()

/-- A tracker step that denies with a 2.5 s wait and bumps its state. -/
def sampleCheckDenied : RateLimiter → CheckResult × RateLimiter :=
  fun l => (CheckResult.denied (Duration.from_nanos 2500000000),
    { l with state := l.state + 1 })

/-- A tracker step that admits and bumps its state. -/
def sampleCheckAdmitted : RateLimiter → CheckResult × RateLimiter :=
  fun l => (CheckResult.admitted, { l with state := l.state + 1 })

/-- A trivial inner-future poll step (always pending). -/
def samplePoll : Unit → Poll (RustResult Response Unit) × Unit :=
  fun u => (Poll.Pending, u)

/-! ### The claims -/

/-- C1: on a request passing the method filter whose limiter check is
denied with wait `wait`, the middleware never invokes the downstream
handler (the returned future is independent of the inner call function),
builds a header map whose `x-ratelimit-after` and `retry-after` entries
both carry the wait rounded down to whole seconds as the same decimal
integer text, wraps that map and `wait_time` in
`GovernorError.TooManyRequests`, and yields the configured error handler's
response through the returned future. -/
theorem C1_denied_request_rejected_with_headers {S B F : Type}
    (g : Governor S) (innerCall : S → Request B → F)
    (check : RateLimiter → CheckResult × RateLimiter) (req : Request B)
    (wait : Duration) (lim' : RateLimiter)
    (hm : methodAllowed g.methods req.method = true)
    (hc : check g.limiter.value = (CheckResult.denied wait, lim')) :
    (∀ innerCall' : S → Request B → F,
      (g.call innerCall' check req).fst = (g.call innerCall check req).fst) ∧
    (g.call innerCall check req).fst =
      { inner := Kind.Error (some (g.error_handler.run
          (GovernorError.TooManyRequests wait.as_secs
            (some [("x-ratelimit-after", toString wait.as_secs),
                   ("retry-after", toString wait.as_secs)])))) } ∧
    HeaderMap.get? [("x-ratelimit-after", toString wait.as_secs),
      ("retry-after", toString wait.as_secs)]
        "x-ratelimit-after" = some (toString wait.as_secs) ∧
    HeaderMap.get? [("x-ratelimit-after", toString wait.as_secs),
      ("retry-after", toString wait.as_secs)]
        "retry-after" = some (toString wait.as_secs) := by
  refine ⟨?_, ?_, rfl, rfl⟩
  · intro ic
    rw [Governor.call_denied_eq g ic check req wait lim' hm hc,
      Governor.call_denied_eq g innerCall check req wait lim' hm hc]
  · rw [Governor.call_denied_eq g innerCall check req wait lim' hm hc]

/-- Witness for C1 at the sample middleware and a denied check with a
2.5 s wait: the stored rejection carries both headers as `"2"`. -/
theorem C1_witness :
    (sampleGovernor.call sampleInnerCall sampleCheckDenied sampleReq).fst =
      { inner := Kind.Error (some (sampleGovernor.error_handler.run
          (GovernorError.TooManyRequests 2
            (some [("x-ratelimit-after", "2"), ("retry-after", "2")])))) } :=
  (C1_denied_request_rejected_with_headers sampleGovernor sampleInnerCall
    sampleCheckDenied sampleReq (Duration.from_nanos 2500000000)
    (sampleCheckDenied sampleGovernor.limiter.value).snd rfl rfl).2.1

/-- C2: `finish` succeeds with a config exactly when the burst size and
the period's nanosecond count are nonzero, yields `none` otherwise, and
never reaches the interior `unwrap` panics. -/
theorem C2_finish_validates_and_never_panics
    (b : GovernorConfigBuilder) (fresh : Nat) :
    (∃ r, b.finish fresh = Except.ok r) ∧
    ((∃ cfg, b.finish fresh = Except.ok (some cfg)) ↔
      b.burst_size ≠ 0 ∧ b.period.as_nanos ≠ 0) ∧
    (¬ (b.burst_size ≠ 0 ∧ b.period.as_nanos ≠ 0) →
      b.finish fresh = Except.ok none) := by
  by_cases hb : b.burst_size = 0
  · have hf : b.finish fresh = Except.ok none := by
      simp [GovernorConfigBuilder.finish, hb]
    refine ⟨⟨none, hf⟩, ?_, fun _ => hf⟩
    simp [hf, hb]
  · by_cases hp : b.period.as_nanos = 0
    · have hf : b.finish fresh = Except.ok none := by
        simp [GovernorConfigBuilder.finish, hp]
      refine ⟨⟨none, hf⟩, ?_, fun _ => hf⟩
      simp [hf, hp]
    · have hf : b.finish fresh = Except.ok (some
          { limiter := Arc.new fresh (RateLimiter.direct
              (Quota.allow_burst
                { replenish_period := b.period, max_burst := 1 } b.burst_size))
            methods := b.methods
            error_handler := b.error_handler }) := by
        simp [GovernorConfigBuilder.finish, Quota.with_period,
          NonZeroU32.new, hb, hp]
      refine ⟨⟨_, hf⟩, ?_, fun hcon => absurd ⟨hb, hp⟩ hcon⟩
      exact ⟨fun _ => ⟨hb, hp⟩, fun _ => ⟨_, hf⟩⟩

/-- Witness for C2: the default builder finishes with a config, and the
default builder with burst size zeroed finishes with `none` (no panic). -/
theorem C2_witness :
    (∃ cfg, GovernorConfigBuilder.const_default.finish 0 =
      Except.ok (some cfg)) ∧
    (GovernorConfigBuilder.const_default.setBurstSize 0).finish 0 =
      Except.ok none :=
  ⟨(C2_finish_validates_and_never_panics
      GovernorConfigBuilder.const_default 0).2.1.mpr ⟨by decide, by decide⟩,
   (C2_finish_validates_and_never_panics
      (GovernorConfigBuilder.const_default.setBurstSize 0) 0).2.2 (by decide)⟩

/-- C3: with a configured filter not containing the request's method, the
middleware forwards the unchanged request unconditionally — for every
tracker step function, no matter the tracker's state — returning the
shared tracker handle untouched (no token consumed); with no filter, the
call is exactly the tracker-checking branch, whose stepped state is
written back through the handle. -/
theorem C3_method_filter_skips_check {S B F : Type} (g : Governor S)
    (innerCall : S → Request B → F)
    (check : RateLimiter → CheckResult × RateLimiter) (req : Request B) :
    (∀ cm, g.methods = some cm → cm.contains req.method = false →
      g.call innerCall check req =
        ({ inner := Kind.Passthrough (innerCall g.inner req) }, g.limiter)) ∧
    (g.methods = none →
      g.call innerCall check req = g.callCheck innerCall check req ∧
      (g.call innerCall check req).snd =
        g.limiter.setValue (check g.limiter.value).snd) := by
  constructor
  · intro cm hms hnc
    simp only [Governor.call, hms]
    rw [hnc]
    rfl
  · intro hms
    refine ⟨by simp only [Governor.call, hms], ?_⟩
    simp only [Governor.call, hms]
    exact Governor.callCheck_snd g innerCall check req

/-- Witness for C3: a GET against the `{POST}`-filtered middleware passes
straight through with the limiter handle unchanged, even under a tracker
that would deny. -/
theorem C3_witness :
    postOnlyGovernor.call sampleInnerCall sampleCheckDenied sampleReq =
      ({ inner := Kind.Passthrough
          (sampleInnerCall postOnlyGovernor.inner sampleReq) },
        postOnlyGovernor.limiter) :=
  (C3_method_filter_skips_check postOnlyGovernor sampleInnerCall
    sampleCheckDenied sampleReq).1 [Method.POST] rfl rfl

/-- C4: a denied request's future resolves on first poll to `Ok` carrying
the rejection response — a successful value of the middleware's own
contract — and never to the service's error value. -/
theorem C4_denied_future_resolves_ok {S B F E : Type} (g : Governor S)
    (innerCall : S → Request B → F)
    (check : RateLimiter → CheckResult × RateLimiter) (req : Request B)
    (wait : Duration) (lim' : RateLimiter)
    (innerPoll : F → Poll (RustResult Response E) × F)
    (hm : methodAllowed g.methods req.method = true)
    (hc : check g.limiter.value = (CheckResult.denied wait, lim')) :
    (∃ resp : Response,
      ((g.call innerCall check req).fst.poll innerPoll).fst =
        PollOutcome.ready (RustResult.Ok resp)) ∧
    ∀ e : E, ((g.call innerCall check req).fst.poll innerPoll).fst ≠
      PollOutcome.ready (RustResult.Err e) := by
  rw [Governor.call_denied_eq g innerCall check req wait lim' hm hc]
  refine ⟨⟨_, rfl⟩, ?_⟩
  intro e h
  injection h with h2
  cases h2

/-- Witness for C4: the sample denied call's future is ready with an `Ok`
response on first poll. -/
theorem C4_witness :
    ∃ resp : Response,
      ((sampleGovernor.call sampleInnerCall sampleCheckDenied
        sampleReq).fst.poll samplePoll).fst =
        PollOutcome.ready (RustResult.Ok resp) :=
  (C4_denied_future_resolves_ok sampleGovernor sampleInnerCall
    sampleCheckDenied sampleReq (Duration.from_nanos 2500000000)
    (sampleCheckDenied sampleGovernor.limiter.value).snd samplePoll
    rfl rfl).1

/-- C5: a future in the `Error` (resolved) state with a stored response
yields it wrapped in `Ok` at first poll — extraction cannot fail since the
slot holds `some` — leaving the slot empty; polling the emptied future
again hits the `expect`: a panic (programming-contract violation), not a
recoverable error value. -/
theorem C5_resolved_single_use {F E : Type} (r : Response)
    (innerPoll : F → Poll (RustResult Response E) × F) :
    ResponseFuture.poll { inner := Kind.Error (some r) } innerPoll =
      (PollOutcome.ready (RustResult.Ok r), { inner := Kind.Error none }) ∧
    ∃ msg, (ResponseFuture.poll { inner := Kind.Error none } innerPoll).fst =
      PollOutcome.panicked msg :=
  ⟨rfl, ⟨_, rfl⟩⟩

/-- C6: on an admitted request the middleware hands the downstream handler
the request value literally unchanged, and the passthrough future
propagates the handler's own poll outcome — ready result (response or
native error) or pending — verbatim. -/
theorem C6_admitted_transparent {S B F E : Type} (g : Governor S)
    (innerCall : S → Request B → F)
    (check : RateLimiter → CheckResult × RateLimiter) (req : Request B)
    (lim' : RateLimiter)
    (hm : methodAllowed g.methods req.method = true)
    (hc : check g.limiter.value = (CheckResult.admitted, lim')) :
    (g.call innerCall check req).fst =
      { inner := Kind.Passthrough (innerCall g.inner req) } ∧
    ∀ (fut : F) (innerPoll : F → Poll (RustResult Response E) × F),
      (∀ a fut', innerPoll fut = (Poll.Ready a, fut') →
        ResponseFuture.poll { inner := Kind.Passthrough fut } innerPoll =
          (PollOutcome.ready a, { inner := Kind.Passthrough fut' })) ∧
      (∀ fut', innerPoll fut = (Poll.Pending, fut') →
        ResponseFuture.poll { inner := Kind.Passthrough fut } innerPoll =
          (PollOutcome.pending, { inner := Kind.Passthrough fut' })) := by
  refine ⟨?_, ?_⟩
  · rw [Governor.call_admitted_eq g innerCall check req lim' hm hc]
  · intro fut innerPoll
    constructor
    · intro a fut' hip
      simp only [ResponseFuture.poll, hip]
    · intro fut' hip
      simp only [ResponseFuture.poll, hip]

/-- Witness for C6: the sample admitted call forwards the request, and a
pending inner poll stays pending. -/
theorem C6_witness :
    (sampleGovernor.call sampleInnerCall sampleCheckAdmitted sampleReq).fst =
      { inner := Kind.Passthrough
          (sampleInnerCall sampleGovernor.inner sampleReq) } ∧
    ResponseFuture.poll { inner := Kind.Passthrough () } samplePoll =
      (PollOutcome.pending, { inner := Kind.Passthrough () }) :=
  ⟨(@C6_admitted_transparent Unit Unit Unit Unit sampleGovernor
      sampleInnerCall sampleCheckAdmitted sampleReq
      (sampleCheckAdmitted sampleGovernor.limiter.value).snd rfl rfl).1,
   ((@C6_admitted_transparent Unit Unit Unit Unit sampleGovernor
      sampleInnerCall sampleCheckAdmitted sampleReq
      (sampleCheckAdmitted sampleGovernor.limiter.value).snd rfl rfl).2
      () samplePoll).2 () rfl⟩

/-- C7: cloning the middleware returns the very same limiter handle (same
allocation id — the `Arc` is cloned, not the tracker) while the inner
service, filter, and handler are cloned; every middleware built from one
config holds the config's own limiter handle, so all clones share one
admission budget. -/
theorem C7_clone_shares_limiter {S : Type} (g : Governor S) (cloneS : S → S) :
    (g.clone cloneS).limiter = g.limiter ∧
    (g.clone cloneS).limiter.id = g.limiter.id ∧
    (g.clone cloneS).methods = g.methods ∧
    (g.clone cloneS).inner = cloneS g.inner ∧
    (g.clone cloneS).error_handler = g.error_handler ∧
    ∀ (cfg : GovernorConfig) (s1 s2 : S),
      (Governor.new s1 cfg).limiter = cfg.limiter ∧
      (Governor.new s2 cfg).limiter = (Governor.new s1 cfg).limiter :=
  ⟨rfl, rfl, rfl, rfl, rfl, fun _ _ _ => ⟨rfl, rfl⟩⟩

/-- C8: readiness is exactly the inner service's readiness — the admission
machinery plays no part in it and is untouched by polling readiness. -/
theorem C8_poll_ready_delegates {S E : Type} (g : Governor S)
    (innerPollReady : S → Poll (RustResult Unit E) × S) :
    (g.poll_ready innerPollReady).fst = (innerPollReady g.inner).fst ∧
    (g.poll_ready innerPollReady).snd.limiter = g.limiter ∧
    (g.poll_ready innerPollReady).snd.methods = g.methods ∧
    (g.poll_ready innerPollReady).snd.error_handler = g.error_handler := by
  rcases hrs : innerPollReady g.inner with ⟨r, s'⟩
  simp [Governor.poll_ready, hrs]

/-- C9: the default preset is burst 8 / period 500 ms with no filter, the
secure preset burst 2 / period 4 s with no filter; both are plain
parameter choices through the ordinary `finish` path, and both produce a
config. -/
theorem C9_presets (fresh : Nat) :
    GovernorConfigBuilder.const_default.period = Duration.from_millis 500 ∧
    GovernorConfigBuilder.const_default.burst_size = 8 ∧
    GovernorConfigBuilder.const_default.methods = none ∧
    GovernorConfig.default fresh =
      unwrapOption (GovernorConfigBuilder.const_default.finish fresh) ∧
    (∃ cfg, GovernorConfig.default fresh = Except.ok cfg ∧
      cfg.limiter.value.quota.replenish_period = Duration.from_millis 500 ∧
      cfg.limiter.value.quota.max_burst = 8 ∧ cfg.methods = none) ∧
    (∃ cfg, GovernorConfig.secure fresh = Except.ok cfg ∧
      cfg.limiter.value.quota.replenish_period = Duration.from_secs 4 ∧
      cfg.limiter.value.quota.max_burst = 2 ∧ cfg.methods = none) := by
  refine ⟨rfl, rfl, rfl, rfl, ?_, ?_⟩
  · exact Exists.intro
      { limiter := Arc.new fresh (RateLimiter.direct
          (Quota.allow_burst
            { replenish_period := DEFAULT_PERIOD, max_burst := 1 } 8))
        methods := none
        error_handler := ErrorHandler.default }
      ⟨rfl, rfl, rfl, rfl⟩
  · exact Exists.intro
      { limiter := Arc.new fresh (RateLimiter.direct
          (Quota.allow_burst
            { replenish_period := Duration.from_secs 4, max_burst := 1 } 2))
        methods := none
        error_handler := ErrorHandler.default }
      ⟨rfl, rfl, rfl, rfl⟩

/-- C10: `ErrorHandler` equality is constantly true, so the derived
builder equality is exactly agreement of period, burst size, and methods —
two builders differing only in their error handler always compare equal. -/
theorem C10_builder_eq_ignores_handler :
    (∀ h1 h2 : ErrorHandler, ErrorHandler.beq h1 h2 = true) ∧
    (∀ a b : GovernorConfigBuilder,
      (GovernorConfigBuilder.beq a b = true ↔
        a.period = b.period ∧ a.burst_size = b.burst_size ∧
          a.methods = b.methods)) ∧
    (∀ (a : GovernorConfigBuilder) (h1 h2 : ErrorHandler),
      GovernorConfigBuilder.beq { a with error_handler := h1 }
        { a with error_handler := h2 } = true) := by
  refine ⟨fun _ _ => rfl, ?_, ?_⟩
  · intro a b
    simp [GovernorConfigBuilder.beq, ErrorHandler.beq, and_assoc]
  · intro a h1 h2
    simp [GovernorConfigBuilder.beq, ErrorHandler.beq]

/-- Witness for C10: the default builder compares equal to itself with a
different error handler substituted. -/
theorem C10_witness :
    GovernorConfigBuilder.beq
      { GovernorConfigBuilder.const_default with
          error_handler := ErrorHandler.default }
      { GovernorConfigBuilder.const_default with
          error_handler :=
            ⟨fun _ => { status := 500, headers := HeaderMap.new, body := "" }⟩ }
      = true :=
  C10_builder_eq_ignores_handler.2.2 GovernorConfigBuilder.const_default
    ErrorHandler.default
    ⟨fun _ => { status := 500, headers := HeaderMap.new, body := "" }⟩

end TowerGovernor
